import Mathlib

/-!
Shallow embedding of the Lang repository's phonetics core (`phonetics.h`) and
of its `expt` exception library (`expt.h` / `expt.cpp`), together with theorems
settling the specification claims.

The `expt` library has a full implementation in `src/support_libraries/expt/expt.cpp`;
its definitions below are translated directly from that source.  The phonetics
classes (`Phone`, `Vowel`, `Consonant`, `Tone`, `Syllable`) are declared in
`src/phonetics/phonetics.h` with documentation comments and unit tests, but the
implementation file is not part of the repository snapshot; the corresponding
definitions below are modelled from the specification, constrained by the header
documentation.  Such definitions are marked `Modelled from the spec:`.
-/

namespace Lang

/-- Kinds of error objects in the program.  `exception`, `valueError` and
`indexError` are the classes of the expt library (`expt.h`); `impossibleArticulation`
is `lang::ImpossibleArticulation` of `phonetics.h`. -/
inductive ErrKind where
| exception
| valueError
| indexError
| impossibleArticulation
deriving DecidableEq, Repr

/-- The C++ base-class of each error class, read off the source:
`class ValueError : public Exception` (expt.h), `class IndexError : public ValueError`
(expt.h), `class ImpossibleArticulation : public expt::Exception` (phonetics.h line 43). -/
def parentKind : ErrKind → Option ErrKind
| ErrKind.exception => none
| ErrKind.valueError => some ErrKind.exception
| ErrKind.indexError => some ErrKind.valueError
| ErrKind.impossibleArticulation => some ErrKind.exception

/-- `a` is `b` or inherits (directly or transitively) from `b`.  The hierarchy in the
source has depth at most two, so two parent steps suffice. -/
def kindDescendsFrom (a b : ErrKind) : Bool :=
  a == b || parentKind a == some b ||
    (match parentKind a with
     | some p => parentKind p == some b
     | none => false)

/-- `expt::Exception` (expt.h): carries only the `_message` field. -/
structure Exception where
  message : String
deriving DecidableEq, Repr

/-- `expt::ValueError` (expt.h): carries only the inherited `_message` field. -/
structure ValueError where
  message : String
deriving DecidableEq, Repr

/-- `expt::IndexError` (expt.h): stores no data of its own, but inherits the
`_message` field of `Exception` through `ValueError`. -/
structure IndexError where
  message : String
deriving DecidableEq, Repr

/-- `IndexError::operator=` (expt.cpp lines 112-116): the body is just
`return *this;` — nothing is copied from `other`. -/
def indexErrorAssign (this other : IndexError) : IndexError :=
  this

/-- `IndexError::operator ValueError` (expt.cpp lines 118-122): returns
`ValueError()`, whose empty constructor sets `_message = ""`. -/
def indexErrorToValueError (e : IndexError) : ValueError :=
  { message := "" }

/-- `IndexError::operator Exception` (expt.cpp lines 124-127): returns
`Exception()`, whose empty constructor sets `_message = ""`. -/
def indexErrorToException (e : IndexError) : Exception :=
  { message := "" }

/-- `enum Phone::Phonation` (phonetics.h lines 114-123). -/
inductive Phonation where
| voiceless
| breathy
| slack
| modal
| stiff
| creaky
| glottal_closure
| faucalized
| harsh
| strident
deriving DecidableEq, Repr

/-- The numeric value of each `Phonation` enumerator (phonetics.h lines 114-123). -/
def phonationIdx : Phonation → Int
| Phonation.voiceless => 0
| Phonation.breathy => 1
| Phonation.slack => 2
| Phonation.modal => 3
| Phonation.stiff => 4
| Phonation.creaky => 5
| Phonation.glottal_closure => 6
| Phonation.faucalized => 7
| Phonation.harsh => 8
| Phonation.strident => 9

/-- The `Phonation` enumerator of numeric value `i` modulo 10 ("will go around
the horn", phonetics.h lines 2417-2457).  `Int.emod` is a true modulo, so the
value is always in `[0, 10)` and the final catch-all case is unreachable. -/
def phonationOfIdx (i : Int) : Phonation :=
  match (i.emod 10).toNat with
  | 0 => Phonation.voiceless
  | 1 => Phonation.breathy
  | 2 => Phonation.slack
  | 3 => Phonation.modal
  | 4 => Phonation.stiff
  | 5 => Phonation.creaky
  | 6 => Phonation.glottal_closure
  | 7 => Phonation.faucalized
  | 8 => Phonation.harsh
  | _ => Phonation.strident

/-- `enum Phone::Nasalization` (phonetics.h lines 132-134). -/
inductive Nasalization where
| oral
| nasal
| strongly_nasal
deriving DecidableEq, Repr

/-- `enum Vowel::Roundedness` (phonetics.h lines 358-360). -/
inductive Roundedness where
| unrounded
| exolabial
| endolabial
deriving DecidableEq, Repr

/-- `enum Consonant::Manner` (phonetics.h lines 680-689). -/
inductive Manner where
| lateral_flap
| lateral_approximant
| lateral_fricative
| trill
| flap
| approximant
| nsib_fricative
| sib_fricative
| stop
| nasal
deriving DecidableEq, Repr

/-- The numeric value of each `Manner` enumerator (phonetics.h lines 680-689). -/
def mannerIdx : Manner → Int
| Manner.lateral_flap => 0
| Manner.lateral_approximant => 1
| Manner.lateral_fricative => 2
| Manner.trill => 3
| Manner.flap => 4
| Manner.approximant => 5
| Manner.nsib_fricative => 6
| Manner.sib_fricative => 7
| Manner.stop => 8
| Manner.nasal => 9

/-- The `Manner` enumerator of numeric value `i` modulo 10 (cyclic wraparound,
phonetics.h lines 2672-2712). -/
def mannerOfIdx (i : Int) : Manner :=
  match (i.emod 10).toNat with
  | 0 => Manner.lateral_flap
  | 1 => Manner.lateral_approximant
  | 2 => Manner.lateral_fricative
  | 3 => Manner.trill
  | 4 => Manner.flap
  | 5 => Manner.approximant
  | 6 => Manner.nsib_fricative
  | 7 => Manner.sib_fricative
  | 8 => Manner.stop
  | _ => Manner.nasal

/-- `enum Consonant::Place` (phonetics.h lines 696-720). -/
inductive Place where
| bilabial
| labiodental
| dentolabial
| bidental
| apical_linguolabial
| laminal_linguolabial
| apical_lower_lip
| laminal_lower_lip
| interdental
| apical_dental
| laminal_dental
| apical_alveolar
| laminal_alveolar
| apical_palato_alveolar
| laminal_palato_alveolar
| apical_retroflex
| laminal_retroflex
| subapical_retroflex
| alveolo_palatal
| palatal
| velar
| uvular
| pharyngeal
| epiglottal
| glottal
deriving DecidableEq, Repr

/-- The numeric value of each `Place` enumerator (phonetics.h lines 696-720). -/
def placeIdx : Place → Int
| Place.bilabial => 0
| Place.labiodental => 1
| Place.dentolabial => 2
| Place.bidental => 3
| Place.apical_linguolabial => 4
| Place.laminal_linguolabial => 5
| Place.apical_lower_lip => 6
| Place.laminal_lower_lip => 7
| Place.interdental => 8
| Place.apical_dental => 9
| Place.laminal_dental => 10
| Place.apical_alveolar => 11
| Place.laminal_alveolar => 12
| Place.apical_palato_alveolar => 13
| Place.laminal_palato_alveolar => 14
| Place.apical_retroflex => 15
| Place.laminal_retroflex => 16
| Place.subapical_retroflex => 17
| Place.alveolo_palatal => 18
| Place.palatal => 19
| Place.velar => 20
| Place.uvular => 21
| Place.pharyngeal => 22
| Place.epiglottal => 23
| Place.glottal => 24

/-- The `Place` enumerator of numeric value `i` modulo 25 (cyclic wraparound,
phonetics.h lines 2722-2762). -/
def placeOfIdx (i : Int) : Place :=
  match (i.emod 25).toNat with
  | 0 => Place.bilabial
  | 1 => Place.labiodental
  | 2 => Place.dentolabial
  | 3 => Place.bidental
  | 4 => Place.apical_linguolabial
  | 5 => Place.laminal_linguolabial
  | 6 => Place.apical_lower_lip
  | 7 => Place.laminal_lower_lip
  | 8 => Place.interdental
  | 9 => Place.apical_dental
  | 10 => Place.laminal_dental
  | 11 => Place.apical_alveolar
  | 12 => Place.laminal_alveolar
  | 13 => Place.apical_palato_alveolar
  | 14 => Place.laminal_palato_alveolar
  | 15 => Place.apical_retroflex
  | 16 => Place.laminal_retroflex
  | 17 => Place.subapical_retroflex
  | 18 => Place.alveolo_palatal
  | 19 => Place.palatal
  | 20 => Place.velar
  | 21 => Place.uvular
  | 22 => Place.pharyngeal
  | 23 => Place.epiglottal
  | _ => Place.glottal

/-- `enum Consonant::VOT` (phonetics.h lines 727-733). -/
inductive VOT where
| completely_voiced
| moderately_voiced
| weakly_voiced
| not_aspirated
| weakly_aspirated
| moderately_aspirated
| strongly_aspirated
deriving DecidableEq, Repr

/-- The numeric value of each `VOT` enumerator (phonetics.h lines 727-733). -/
def votIdx : VOT → Int
| VOT.completely_voiced => 0
| VOT.moderately_voiced => 1
| VOT.weakly_voiced => 2
| VOT.not_aspirated => 3
| VOT.weakly_aspirated => 4
| VOT.moderately_aspirated => 5
| VOT.strongly_aspirated => 6

/-- The `VOT` enumerator of numeric value `i` modulo 7 (cyclic wraparound,
phonetics.h lines 2773-2813). -/
def votOfIdx (i : Int) : VOT :=
  match (i.emod 7).toNat with
  | 0 => VOT.completely_voiced
  | 1 => VOT.moderately_voiced
  | 2 => VOT.weakly_voiced
  | 3 => VOT.not_aspirated
  | 4 => VOT.weakly_aspirated
  | 5 => VOT.moderately_aspirated
  | _ => VOT.strongly_aspirated

/-- `enum Consonant::Mechanism` (phonetics.h lines 740-743). -/
inductive Mechanism where
| pul_eg
| ejective
| click
| implosive
deriving DecidableEq, Repr

/-- The numeric value of each `Mechanism` enumerator (phonetics.h lines 740-743). -/
def mechanismIdx : Mechanism → Int
| Mechanism.pul_eg => 0
| Mechanism.ejective => 1
| Mechanism.click => 2
| Mechanism.implosive => 3

/-- The `Mechanism` enumerator of numeric value `i` modulo 4 ("will go around
the horn", phonetics.h lines 2824-2864). -/
def mechanismOfIdx (i : Int) : Mechanism :=
  match (i.emod 4).toNat with
  | 0 => Mechanism.pul_eg
  | 1 => Mechanism.ejective
  | 2 => Mechanism.click
  | _ => Mechanism.implosive

/-- Modelled from the spec: the `ArticulatoryValidator`, the pure predicate over
(manner, place, phonation, VOT, mechanism) deciding physical possibility.  Its
implementation is not in the repository snapshot; the spec fixes its two documented
exclusion rules (a glottal-place stop admits only voiceless phonation; a VOT of
`completely_voiced` is incompatible with `voiceless` phonation) and an open-world
default-valid policy, both confirmed by the unit tests in phonetics_test.cpp. -/
def articulatoryValidator (m : Manner) (p : Place) (ph : Phonation) (v : VOT)
    (mech : Mechanism) : Prop :=
  ¬(m = Manner.stop ∧ p = Place.glottal ∧ ph ≠ Phonation.voiceless) ∧
  ¬(v = VOT.completely_voiced ∧ ph = Phonation.voiceless)

instance (m : Manner) (p : Place) (ph : Phonation) (v : VOT) (mech : Mechanism) :
    Decidable (articulatoryValidator m p ph v mech) := by
  unfold articulatoryValidator
  infer_instance

/-- `class Consonant : public Phone` (phonetics.h): the five consonant fields
plus the `Phone` fields (nasalization, phonation, length).  `float` length is
embedded as `ℚ`.  If the consonant has no secondary articulation,
`secondary_articulation` equals `place` (phonetics.h lines 756-761). -/
structure Consonant where
  manner : Manner
  place : Place
  secondary_articulation : Place
  vot : VOT
  mechanism : Mechanism
  phonation : Phonation
  nasalization : Nasalization
  length : ℚ
deriving DecidableEq, Repr

/-- The five-tuple of a consonant judged by the validator. -/
def validC (c : Consonant) : Prop :=
  articulatoryValidator c.manner c.place c.phonation c.vot c.mechanism

instance (c : Consonant) : Decidable (validC c) := by
  unfold validC
  infer_instance

/-- `Consonant::Consonant()` (phonetics.h lines 779-794): stop, apical alveolar,
no secondary articulation, voiceless, moderate aspiration, pulmonic egressive,
length 1.0, oral. -/
def defaultConsonant : Consonant :=
  { manner := Manner.stop
    place := Place.apical_alveolar
    secondary_articulation := Place.apical_alveolar
    vot := VOT.moderately_aspirated
    mechanism := Mechanism.pul_eg
    phonation := Phonation.voiceless
    nasalization := Nasalization.oral
    length := 1 }

/-- Modelled from the spec: the standard constructor
`Consonant(manner, place, phonation, vot, nasalization, mechanism, length)`
(phonetics.h lines 796-815) — throws `ImpossibleArticulation` if the arguments
give an impossible consonant; a fresh consonant has no secondary articulation.
The `length > 0` check embeds the `Phone` length invariant. -/
def mkConsonant (m : Manner) (p : Place) (ph : Phonation) (v : VOT)
    (nas : Nasalization) (mech : Mechanism) (len : ℚ) :
    Except ErrKind Consonant :=
  if articulatoryValidator m p ph v mech ∧ 0 < len then
    Except.ok
      { manner := m, place := p, secondary_articulation := p, vot := v
        mechanism := mech, phonation := ph, nasalization := nas, length := len }
  else
    Except.error ErrKind.impossibleArticulation

/-- Modelled from the spec: `Consonant::set_manner` (phonetics.h lines 857-869) —
evaluate the validator against the full candidate state with only the manner
replaced; commit only if valid, else signal `ImpossibleArticulation` and leave
the state unchanged. -/
def set_manner (c : Consonant) (new_manner : Manner) : Consonant × Option ErrKind :=
  if articulatoryValidator new_manner c.place c.phonation c.vot c.mechanism then
    ({ c with manner := new_manner }, none)
  else
    (c, some ErrKind.impossibleArticulation)

/-- Modelled from the spec: `Consonant::incr_manner` (phonetics.h lines 871-884) —
candidate computed by a cyclic step over the 10-state `Manner` enumeration, then
validated as in `set_manner`. -/
def incr_manner (c : Consonant) (val : Int) : Consonant × Option ErrKind :=
  set_manner c (mannerOfIdx (mannerIdx c.manner + val))

/-- Modelled from the spec: `Consonant::decr_manner` (phonetics.h lines 886-899). -/
def decr_manner (c : Consonant) (val : Int) : Consonant × Option ErrKind :=
  set_manner c (mannerOfIdx (mannerIdx c.manner - val))

/-- Modelled from the spec: `Consonant::set_place` (phonetics.h lines 907-918). -/
def set_place (c : Consonant) (new_place : Place) : Consonant × Option ErrKind :=
  if articulatoryValidator c.manner new_place c.phonation c.vot c.mechanism then
    ({ c with place := new_place }, none)
  else
    (c, some ErrKind.impossibleArticulation)

/-- Modelled from the spec: `Consonant::incr_place` (phonetics.h lines 920-933). -/
def incr_place (c : Consonant) (val : Int) : Consonant × Option ErrKind :=
  set_place c (placeOfIdx (placeIdx c.place + val))

/-- Modelled from the spec: `Consonant::decr_place` (phonetics.h lines 935-948). -/
def decr_place (c : Consonant) (val : Int) : Consonant × Option ErrKind :=
  set_place c (placeOfIdx (placeIdx c.place - val))

/-- Modelled from the spec: `Consonant::set_secondary_articulation`
(phonetics.h lines 965-979) — the secondary place is not among the validator's
five fields, so the validated candidate five-tuple is the current one. -/
def set_secondary_articulation (c : Consonant) (new_place : Place) :
    Consonant × Option ErrKind :=
  if articulatoryValidator c.manner c.place c.phonation c.vot c.mechanism then
    ({ c with secondary_articulation := new_place }, none)
  else
    (c, some ErrKind.impossibleArticulation)

/-- Modelled from the spec: `Consonant::remove_secondary_articulation`
(phonetics.h lines 981-986) — resets the secondary place to equal the primary. -/
def remove_secondary_articulation (c : Consonant) : Consonant × Option ErrKind :=
  ({ c with secondary_articulation := c.place }, none)

/-- Modelled from the spec: `Consonant::incr_secondary_articulation`
(phonetics.h lines 988-1001). -/
def incr_secondary_articulation (c : Consonant) (val : Int) :
    Consonant × Option ErrKind :=
  set_secondary_articulation c (placeOfIdx (placeIdx c.secondary_articulation + val))

/-- Modelled from the spec: `Consonant::decr_secondary_articulation`
(phonetics.h lines 1003-1016). -/
def decr_secondary_articulation (c : Consonant) (val : Int) :
    Consonant × Option ErrKind :=
  set_secondary_articulation c (placeOfIdx (placeIdx c.secondary_articulation - val))

/-- Modelled from the spec: `Consonant::set_vot` (phonetics.h lines 1024-1035). -/
def set_vot (c : Consonant) (new_vot : VOT) : Consonant × Option ErrKind :=
  if articulatoryValidator c.manner c.place c.phonation new_vot c.mechanism then
    ({ c with vot := new_vot }, none)
  else
    (c, some ErrKind.impossibleArticulation)

/-- Modelled from the spec: `Consonant::later_vot` (phonetics.h lines 1037-1049). -/
def later_vot (c : Consonant) (val : Int) : Consonant × Option ErrKind :=
  set_vot c (votOfIdx (votIdx c.vot + val))

/-- Modelled from the spec: `Consonant::earlier_vot` (phonetics.h lines 1051-1063). -/
def earlier_vot (c : Consonant) (val : Int) : Consonant × Option ErrKind :=
  set_vot c (votOfIdx (votIdx c.vot - val))

/-- Modelled from the spec: `Consonant::set_mechanism` (phonetics.h lines 1071-1082). -/
def set_mechanism (c : Consonant) (new_mechanism : Mechanism) :
    Consonant × Option ErrKind :=
  if articulatoryValidator c.manner c.place c.phonation c.vot new_mechanism then
    ({ c with mechanism := new_mechanism }, none)
  else
    (c, some ErrKind.impossibleArticulation)

/-- Modelled from the spec: `Consonant::incr_mechanism` (phonetics.h lines
1084-1092) — candidate computed by cyclic wraparound over the 4-state
`Mechanism` enumeration, then validated as for every categorical mutator. -/
def incr_mechanism (c : Consonant) (val : Int) : Consonant × Option ErrKind :=
  set_mechanism c (mechanismOfIdx (mechanismIdx c.mechanism + val))

/-- Modelled from the spec: `Consonant::decr_mechanism` (phonetics.h lines
1094-1102). -/
def decr_mechanism (c : Consonant) (val : Int) : Consonant × Option ErrKind :=
  set_mechanism c (mechanismOfIdx (mechanismIdx c.mechanism - val))

/-- Modelled from the spec: `Phone::set_phonation` on a consonant (phonetics.h
lines 209-222) — the candidate whole state, with phonation replaced, goes
through the consonant's validity hook, i.e. the `ArticulatoryValidator`. -/
def c_set_phonation (c : Consonant) (new_phonation : Phonation) :
    Consonant × Option ErrKind :=
  if articulatoryValidator c.manner c.place new_phonation c.vot c.mechanism then
    ({ c with phonation := new_phonation }, none)
  else
    (c, some ErrKind.impossibleArticulation)

/-- Modelled from the spec: `Phone::incr_phonation` on a consonant (phonetics.h
lines 224-239) — cyclic step over the 10-state `Phonation` enumeration, then
the same validation as `set_phonation`. -/
def c_incr_phonation (c : Consonant) (val : Int) : Consonant × Option ErrKind :=
  c_set_phonation c (phonationOfIdx (phonationIdx c.phonation + val))

/-- Modelled from the spec: `Phone::decr_phonation` on a consonant (phonetics.h
lines 241-256). -/
def c_decr_phonation (c : Consonant) (val : Int) : Consonant × Option ErrKind :=
  c_set_phonation c (phonationOfIdx (phonationIdx c.phonation - val))

/-- Modelled from the spec: `Phone::set_nasalization` (phonetics.h lines 187-194) —
no cross-field validity constraint. -/
def c_set_nasalization (c : Consonant) (new_nasalization : Nasalization) :
    Consonant × Option ErrKind :=
  ({ c with nasalization := new_nasalization }, none)

/-- Modelled from the spec: `Phone::set_length` (phonetics.h lines 264-274) —
throws `ImpossibleArticulation` if the new length is `<= 0`. -/
def c_set_length (c : Consonant) (new_length : ℚ) : Consonant × Option ErrKind :=
  if 0 < new_length then
    ({ c with length := new_length }, none)
  else
    (c, some ErrKind.impossibleArticulation)

/-- Modelled from the spec: `Phone::lengthen` (phonetics.h lines 276-283). -/
def c_lengthen (c : Consonant) (val : ℚ) : Consonant × Option ErrKind :=
  ({ c with length := c.length + val }, none)

/-- Modelled from the spec: `Phone::shorten` (phonetics.h lines 285-296) —
throws `ImpossibleArticulation` if the result would be `<= 0`. -/
def c_shorten (c : Consonant) (val : ℚ) : Consonant × Option ErrKind :=
  if 0 < c.length - val then
    ({ c with length := c.length - val }, none)
  else
    (c, some ErrKind.impossibleArticulation)

/-- Modelled from the spec: `Phone::double_length` (phonetics.h lines 298-302). -/
def c_double_length (c : Consonant) : Consonant × Option ErrKind :=
  ({ c with length := 2 * c.length }, none)

/-- Modelled from the spec: `Phone::halve_length` (phonetics.h lines 304-308). -/
def c_halve_length (c : Consonant) : Consonant × Option ErrKind :=
  ({ c with length := c.length / 2 }, none)

/-- One public mutator call on a `Consonant` (all the mutators of `Consonant`
and the `Phone` mutators it inherits). -/
inductive COp where
| set_manner (m : Manner)
| incr_manner (k : Int)
| decr_manner (k : Int)
| set_place (p : Place)
| incr_place (k : Int)
| decr_place (k : Int)
| set_secondary_articulation (p : Place)
| remove_secondary_articulation
| incr_secondary_articulation (k : Int)
| decr_secondary_articulation (k : Int)
| set_vot (v : VOT)
| later_vot (k : Int)
| earlier_vot (k : Int)
| set_mechanism (m : Mechanism)
| incr_mechanism (k : Int)
| decr_mechanism (k : Int)
| set_phonation (p : Phonation)
| incr_phonation (k : Int)
| decr_phonation (k : Int)
| set_nasalization (n : Nasalization)
| set_length (l : ℚ)
| lengthen (l : ℚ)
| shorten (l : ℚ)
| double_length
| halve_length
deriving DecidableEq, Repr

/-- Dispatch of a mutator call to the corresponding member function model. -/
def applyCOp (c : Consonant) : COp → Consonant × Option ErrKind
| COp.set_manner m => set_manner c m
| COp.incr_manner k => incr_manner c k
| COp.decr_manner k => decr_manner c k
| COp.set_place p => set_place c p
| COp.incr_place k => incr_place c k
| COp.decr_place k => decr_place c k
| COp.set_secondary_articulation p => set_secondary_articulation c p
| COp.remove_secondary_articulation => remove_secondary_articulation c
| COp.incr_secondary_articulation k => incr_secondary_articulation c k
| COp.decr_secondary_articulation k => decr_secondary_articulation c k
| COp.set_vot v => set_vot c v
| COp.later_vot k => later_vot c k
| COp.earlier_vot k => earlier_vot c k
| COp.set_mechanism m => set_mechanism c m
| COp.incr_mechanism k => incr_mechanism c k
| COp.decr_mechanism k => decr_mechanism c k
| COp.set_phonation p => c_set_phonation c p
| COp.incr_phonation k => c_incr_phonation c k
| COp.decr_phonation k => c_decr_phonation c k
| COp.set_nasalization n => c_set_nasalization c n
| COp.set_length l => c_set_length c l
| COp.lengthen l => c_lengthen c l
| COp.shorten l => c_shorten c l
| COp.double_length => c_double_length c
| COp.halve_length => c_halve_length c

/-- The prospective five-field validator tuple of a mutator call: the current
five fields with only the mutated field replaced by its candidate value.
`none` for the mutators that are not routed through the validator
(nasalization and length, which touch none of the five fields). -/
def artCandidate (c : Consonant) : COp →
    Option (Manner × Place × Phonation × VOT × Mechanism)
| COp.set_manner m => some (m, c.place, c.phonation, c.vot, c.mechanism)
| COp.incr_manner k =>
    some (mannerOfIdx (mannerIdx c.manner + k), c.place, c.phonation, c.vot, c.mechanism)
| COp.decr_manner k =>
    some (mannerOfIdx (mannerIdx c.manner - k), c.place, c.phonation, c.vot, c.mechanism)
| COp.set_place p => some (c.manner, p, c.phonation, c.vot, c.mechanism)
| COp.incr_place k =>
    some (c.manner, placeOfIdx (placeIdx c.place + k), c.phonation, c.vot, c.mechanism)
| COp.decr_place k =>
    some (c.manner, placeOfIdx (placeIdx c.place - k), c.phonation, c.vot, c.mechanism)
| COp.set_secondary_articulation _ =>
    some (c.manner, c.place, c.phonation, c.vot, c.mechanism)
| COp.remove_secondary_articulation => none
| COp.incr_secondary_articulation _ =>
    some (c.manner, c.place, c.phonation, c.vot, c.mechanism)
| COp.decr_secondary_articulation _ =>
    some (c.manner, c.place, c.phonation, c.vot, c.mechanism)
| COp.set_vot v => some (c.manner, c.place, c.phonation, v, c.mechanism)
| COp.later_vot k =>
    some (c.manner, c.place, c.phonation, votOfIdx (votIdx c.vot + k), c.mechanism)
| COp.earlier_vot k =>
    some (c.manner, c.place, c.phonation, votOfIdx (votIdx c.vot - k), c.mechanism)
| COp.set_mechanism m => some (c.manner, c.place, c.phonation, c.vot, m)
| COp.incr_mechanism k =>
    some (c.manner, c.place, c.phonation, c.vot,
      mechanismOfIdx (mechanismIdx c.mechanism + k))
| COp.decr_mechanism k =>
    some (c.manner, c.place, c.phonation, c.vot,
      mechanismOfIdx (mechanismIdx c.mechanism - k))
| COp.set_phonation p => some (c.manner, c.place, p, c.vot, c.mechanism)
| COp.incr_phonation k =>
    some (c.manner, c.place, phonationOfIdx (phonationIdx c.phonation + k),
      c.vot, c.mechanism)
| COp.decr_phonation k =>
    some (c.manner, c.place, phonationOfIdx (phonationIdx c.phonation - k),
      c.vot, c.mechanism)
| COp.set_nasalization _ => none
| COp.set_length _ => none
| COp.lengthen _ => none
| COp.shorten _ => none
| COp.double_length => none
| COp.halve_length => none

/-- The validator judgement on a five-field tuple. -/
def validTuple : Manner × Place × Phonation × VOT × Mechanism → Prop
| (m, p, ph, v, mech) => articulatoryValidator m p ph v mech

instance (t : Manner × Place × Phonation × VOT × Mechanism) :
    Decidable (validTuple t) := by
  obtain ⟨m, p, ph, v, mech⟩ := t
  unfold validTuple
  infer_instance

/-- The consonants reachable through the public constructors and mutators. -/
inductive ReachableC : Consonant → Prop where
| default : ReachableC defaultConsonant
| mk {m : Manner} {p : Place} {ph : Phonation} {v : VOT} {nas : Nasalization}
    {mech : Mechanism} {len : ℚ} {c : Consonant} :
    mkConsonant m p ph v nas mech len = Except.ok c → ReachableC c
| step {c : Consonant} (op : COp) : ReachableC c → ReachableC (applyCOp c op).1

/-- Every mutator commits only a state the validator accepts, so the validator
judgement is preserved by every mutator call. -/
theorem validC_applyCOp (c : Consonant) (op : COp) (h : validC c) :
    validC (applyCOp c op).1 := by
  cases op <;>
    simp only [applyCOp, set_manner, incr_manner, decr_manner, set_place, incr_place,
      decr_place, set_secondary_articulation, remove_secondary_articulation,
      incr_secondary_articulation, decr_secondary_articulation, set_vot, later_vot,
      earlier_vot, set_mechanism, incr_mechanism, decr_mechanism, c_set_phonation,
      c_incr_phonation, c_decr_phonation, c_set_nasalization, c_set_length, c_lengthen,
      c_shorten, c_double_length, c_halve_length] <;>
    (try split) <;>
    simp_all [validC, articulatoryValidator]

/-- A consonant produced by the standard constructor satisfies the validator. -/
theorem validC_mkConsonant {m : Manner} {p : Place} {ph : Phonation} {v : VOT}
    {nas : Nasalization} {mech : Mechanism} {len : ℚ} {c : Consonant}
    (h : mkConsonant m p ph v nas mech len = Except.ok c) : validC c := by
  unfold mkConsonant at h
  split at h
  case isTrue hc =>
    cases h
    simpa [validC, articulatoryValidator] using hc.1
  case isFalse => cases h

/-- C1: every consonant reachable through the public constructors and mutators
satisfies the ArticulatoryValidator at rest; and every mutator call whose
candidate five-field state the validator rejects signals an
ImpossibleArticulation-kind error and leaves the whole consonant (all five
validated fields and the other Phone fields) exactly unchanged. -/
theorem consonant_validator_invariant :
    (∀ c : Consonant, ReachableC c → validC c) ∧
    (∀ (c : Consonant) (op : COp) (t : Manner × Place × Phonation × VOT × Mechanism),
      artCandidate c op = some t → ¬ validTuple t →
      applyCOp c op = (c, some ErrKind.impossibleArticulation)) := by
  constructor
  · intro c hc
    induction hc with
    | default => decide
    | mk h => exact validC_mkConsonant h
    | step op hc ih => exact validC_applyCOp _ op ih
  · intro c op t ht hrej
    cases op <;>
      simp only [artCandidate, Option.some.injEq, reduceCtorEq] at ht <;>
      subst ht <;>
      simp only [validTuple] at hrej <;>
      simp only [applyCOp, set_manner, incr_manner, decr_manner, set_place, incr_place,
        decr_place, set_secondary_articulation, incr_secondary_articulation,
        decr_secondary_articulation, set_vot, later_vot, earlier_vot, set_mechanism,
        incr_mechanism, decr_mechanism, c_set_phonation, c_incr_phonation,
        c_decr_phonation] <;>
      rw [if_neg hrej]

/-- Witness for C1 at concrete inputs: the default consonant is reachable and
valid, and a rejected mutation (`set_vot(completely_voiced)` on the voiceless
default consonant) errors and leaves the state untouched. -/
theorem consonant_validator_invariant_witness :
    validC defaultConsonant ∧
    applyCOp defaultConsonant (COp.set_vot VOT.completely_voiced) =
      (defaultConsonant, some ErrKind.impossibleArticulation) :=
  ⟨consonant_validator_invariant.1 defaultConsonant ReachableC.default,
   consonant_validator_invariant.2 defaultConsonant (COp.set_vot VOT.completely_voiced)
     (Manner.stop, Place.apical_alveolar, Phonation.voiceless, VOT.completely_voiced,
       Mechanism.pul_eg) rfl (by decide)⟩

/-- C2: on a glottal-place stop, every phonation mutation whose candidate
phonation is not voiceless raises ImpossibleArticulation and leaves the
consonant exactly as it was. -/
theorem glottal_stop_requires_voiceless (c : Consonant)
    (hm : c.manner = Manner.stop) (hp : c.place = Place.glottal) :
    (∀ p : Phonation, p ≠ Phonation.voiceless →
      c_set_phonation c p = (c, some ErrKind.impossibleArticulation)) ∧
    (∀ k : Int, phonationOfIdx (phonationIdx c.phonation + k) ≠ Phonation.voiceless →
      c_incr_phonation c k = (c, some ErrKind.impossibleArticulation)) ∧
    (∀ k : Int, phonationOfIdx (phonationIdx c.phonation - k) ≠ Phonation.voiceless →
      c_decr_phonation c k = (c, some ErrKind.impossibleArticulation)) := by
  have key : ∀ p : Phonation, p ≠ Phonation.voiceless →
      c_set_phonation c p = (c, some ErrKind.impossibleArticulation) := by
    intro p hne
    unfold c_set_phonation
    rw [if_neg]
    intro hval
    exact hval.1 ⟨hm, hp, hne⟩
  exact ⟨key, fun k h => key _ h, fun k h => key _ h⟩

/-- Witness for C2, Scenario B of the spec: `Consonant(stop, glottal, voiceless,
not_aspirated)` then `set_phonation(modal)` errors and leaves the state unchanged. -/
theorem glottal_stop_requires_voiceless_witness :
    c_set_phonation
      { manner := Manner.stop, place := Place.glottal,
        secondary_articulation := Place.glottal, vot := VOT.not_aspirated,
        mechanism := Mechanism.pul_eg, phonation := Phonation.voiceless,
        nasalization := Nasalization.oral, length := 1 } Phonation.modal =
    ({ manner := Manner.stop, place := Place.glottal,
       secondary_articulation := Place.glottal, vot := VOT.not_aspirated,
       mechanism := Mechanism.pul_eg, phonation := Phonation.voiceless,
       nasalization := Nasalization.oral, length := 1 },
     some ErrKind.impossibleArticulation) :=
  (glottal_stop_requires_voiceless _ rfl rfl).1 Phonation.modal (by decide)

/-- C3: a state combining a completely-voiced VOT with voiceless phonation is
rejected, whether reached through `set_phonation(voiceless)`, through
`set_vot(completely_voiced)`, or through the standard constructor; the failed
mutator leaves the consonant unchanged. -/
theorem voiced_vot_excludes_voiceless (c : Consonant) :
    (c.vot = VOT.completely_voiced →
      c_set_phonation c Phonation.voiceless = (c, some ErrKind.impossibleArticulation)) ∧
    (c.phonation = Phonation.voiceless →
      set_vot c VOT.completely_voiced = (c, some ErrKind.impossibleArticulation)) ∧
    (∀ (m : Manner) (p : Place) (nas : Nasalization) (mech : Mechanism) (len : ℚ),
      mkConsonant m p Phonation.voiceless VOT.completely_voiced nas mech len =
        Except.error ErrKind.impossibleArticulation) := by
  refine ⟨fun hvot => ?_, fun hph => ?_, fun m p nas mech len => ?_⟩
  · unfold c_set_phonation
    rw [if_neg]
    intro hval
    exact hval.2 ⟨hvot, rfl⟩
  · unfold set_vot
    rw [if_neg]
    intro hval
    exact hval.2 ⟨rfl, hph⟩
  · unfold mkConsonant
    rw [if_neg]
    intro hval
    exact hval.1.2 ⟨rfl, rfl⟩

/-- Witness for C3, Scenario C of the spec, at concrete inputs: a modal
consonant with completely-voiced VOT rejects `set_phonation(voiceless)`; the
voiceless default consonant rejects `set_vot(completely_voiced)`; the
constructor rejects the pair outright. -/
theorem voiced_vot_excludes_voiceless_witness :
    c_set_phonation
      { manner := Manner.stop, place := Place.apical_alveolar,
        secondary_articulation := Place.apical_alveolar, vot := VOT.completely_voiced,
        mechanism := Mechanism.pul_eg, phonation := Phonation.modal,
        nasalization := Nasalization.oral, length := 1 } Phonation.voiceless =
      ({ manner := Manner.stop, place := Place.apical_alveolar,
         secondary_articulation := Place.apical_alveolar, vot := VOT.completely_voiced,
         mechanism := Mechanism.pul_eg, phonation := Phonation.modal,
         nasalization := Nasalization.oral, length := 1 },
       some ErrKind.impossibleArticulation) ∧
    set_vot defaultConsonant VOT.completely_voiced =
      (defaultConsonant, some ErrKind.impossibleArticulation) ∧
    mkConsonant Manner.stop Place.apical_alveolar Phonation.voiceless
      VOT.completely_voiced Nasalization.oral Mechanism.pul_eg 1 =
      Except.error ErrKind.impossibleArticulation :=
  ⟨(voiced_vot_excludes_voiceless _).1 rfl,
   (voiced_vot_excludes_voiceless defaultConsonant).2.1 rfl,
   (voiced_vot_excludes_voiceless defaultConsonant).2.2 Manner.stop
     Place.apical_alveolar Nasalization.oral Mechanism.pul_eg 1⟩

/-- Round trip between the numeric projection and the enumerator for
`Mechanism`: the candidate of a cyclic step is the true modulo of the stepped
ordinal, always in `[0, 4)`. -/
theorem mechanismIdx_mechanismOfIdx (i : Int) :
    mechanismIdx (mechanismOfIdx i) = i.emod 4 := by
  have h0 : 0 ≤ i.emod 4 := Int.emod_nonneg i (by norm_num)
  have h4 : i.emod 4 < 4 := Int.emod_lt_of_pos i (by norm_num)
  unfold mechanismOfIdx
  generalize hj : i.emod 4 = j at h0 h4 ⊢
  interval_cases j <;> rfl

/-- C9: every mechanism mutator of `Consonant` evaluates the validator against
the full candidate five-field state and commits only if valid, otherwise it
fails with ImpossibleArticulation and leaves the consonant unchanged; the
incr/decr forms compute their candidate by cyclic wraparound over the 4-state
`Mechanism` enumeration. -/
theorem mechanism_mutators_validated (c : Consonant) :
    (∀ m : Mechanism,
      (validTuple (c.manner, c.place, c.phonation, c.vot, m) →
        set_mechanism c m = ({ c with mechanism := m }, none)) ∧
      (¬ validTuple (c.manner, c.place, c.phonation, c.vot, m) →
        set_mechanism c m = (c, some ErrKind.impossibleArticulation))) ∧
    (∀ k : Int,
      incr_mechanism c k =
        set_mechanism c (mechanismOfIdx (mechanismIdx c.mechanism + k)) ∧
      mechanismIdx (mechanismOfIdx (mechanismIdx c.mechanism + k)) =
        (mechanismIdx c.mechanism + k).emod 4) ∧
    (∀ k : Int,
      decr_mechanism c k =
        set_mechanism c (mechanismOfIdx (mechanismIdx c.mechanism - k)) ∧
      mechanismIdx (mechanismOfIdx (mechanismIdx c.mechanism - k)) =
        (mechanismIdx c.mechanism - k).emod 4) := by
  refine ⟨fun m => ⟨fun hv => ?_, fun hv => ?_⟩,
    fun k => ⟨rfl, mechanismIdx_mechanismOfIdx _⟩,
    fun k => ⟨rfl, mechanismIdx_mechanismOfIdx _⟩⟩
  · simp only [validTuple] at hv
    unfold set_mechanism
    rw [if_pos hv]
  · simp only [validTuple] at hv
    unfold set_mechanism
    rw [if_neg hv]

/-- Witness for C9 at concrete inputs: on the (valid) default consonant,
`set_mechanism(ejective)` commits; on a consonant whose other four fields are
already impossible (a modal glottal stop), `set_mechanism(ejective)` errors
and changes nothing. -/
theorem mechanism_mutators_validated_witness :
    set_mechanism defaultConsonant Mechanism.ejective =
      ({ defaultConsonant with mechanism := Mechanism.ejective }, none) ∧
    set_mechanism
      { manner := Manner.stop, place := Place.glottal,
        secondary_articulation := Place.glottal, vot := VOT.not_aspirated,
        mechanism := Mechanism.pul_eg, phonation := Phonation.modal,
        nasalization := Nasalization.oral, length := 1 } Mechanism.ejective =
      ({ manner := Manner.stop, place := Place.glottal,
         secondary_articulation := Place.glottal, vot := VOT.not_aspirated,
         mechanism := Mechanism.pul_eg, phonation := Phonation.modal,
         nasalization := Nasalization.oral, length := 1 },
       some ErrKind.impossibleArticulation) :=
  ⟨((mechanism_mutators_validated defaultConsonant).1 Mechanism.ejective).1 (by decide),
   ((mechanism_mutators_validated _).1 Mechanism.ejective).2 (by decide)⟩

/-- `class Vowel : public Phone` (phonetics.h): height and backness are `float`
values embedded as `ℚ`, plus roundedness, the r-colored flag and the inherited
`Phone` fields. -/
structure Vowel where
  height : ℚ
  backness : ℚ
  roundedness : Roundedness
  r_colored : Bool
  phonation : Phonation
  nasalization : Nasalization
  length : ℚ
deriving DecidableEq, Repr

/-- `Vowel::Vowel()` (phonetics.h lines 416-432): the schwa — mid (3), central
(2), unrounded, oral, not r-colored, modal, length 1.0. -/
def defaultVowel : Vowel :=
  { height := 3, backness := 2, roundedness := Roundedness.unrounded
    r_colored := false, phonation := Phonation.modal
    nasalization := Nasalization.oral, length := 1 }

/-- Modelled from the spec: the simple constructor
`Vowel(height, backness, roundedness)` (phonetics.h lines 434-460) — height must
be in `[0, 6]` and backness in `[0, 4]`, other fields defaulted. -/
def mkVowelSimple (h b : ℚ) (r : Roundedness) : Except ErrKind Vowel :=
  if 0 ≤ h ∧ h ≤ 6 ∧ 0 ≤ b ∧ b ≤ 4 then
    Except.ok
      { height := h, backness := b, roundedness := r, r_colored := false
        phonation := Phonation.modal, nasalization := Nasalization.oral, length := 1 }
  else
    Except.error ErrKind.impossibleArticulation

/-- Modelled from the spec: the detailed constructor
`Vowel(height, backness, roundedness, nasalization, r_colored, phonation, length)`
(phonetics.h lines 462-487) — throws `ImpossibleArticulation` if height or
backness is out of range, if length is `<= 0`, or if `glottal_closure` is
passed for phonation. -/
def mkVowel (h b : ℚ) (r : Roundedness) (nas : Nasalization) (rc : Bool)
    (ph : Phonation) (len : ℚ) : Except ErrKind Vowel :=
  if 0 ≤ h ∧ h ≤ 6 ∧ 0 ≤ b ∧ b ≤ 4 ∧ 0 < len ∧ ph ≠ Phonation.glottal_closure then
    Except.ok
      { height := h, backness := b, roundedness := r, r_colored := rc
        phonation := ph, nasalization := nas, length := len }
  else
    Except.error ErrKind.impossibleArticulation

/-- Modelled from the spec: `Phone::set_phonation` on a vowel (phonetics.h lines
209-222) — the vowel's validity hook rejects exactly the `glottal_closure`
state; on rejection the vowel is unchanged. -/
def v_set_phonation (v : Vowel) (new_phonation : Phonation) : Vowel × Option ErrKind :=
  if new_phonation = Phonation.glottal_closure then
    (v, some ErrKind.impossibleArticulation)
  else
    ({ v with phonation := new_phonation }, none)

/-- Modelled from the spec: `Phone::incr_phonation` on a vowel (phonetics.h
lines 224-239) — cyclic step over the 10-state `Phonation` enumeration, then
the vowel's validity hook. -/
def v_incr_phonation (v : Vowel) (val : Int) : Vowel × Option ErrKind :=
  v_set_phonation v (phonationOfIdx (phonationIdx v.phonation + val))

/-- Modelled from the spec: `Phone::decr_phonation` on a vowel (phonetics.h
lines 241-256). -/
def v_decr_phonation (v : Vowel) (val : Int) : Vowel × Option ErrKind :=
  v_set_phonation v (phonationOfIdx (phonationIdx v.phonation - val))

/-- Modelled from the spec: `Vowel::set_height` (phonetics.h lines 532-544) —
the new height must be in `[0, 6]`. -/
def set_height (v : Vowel) (new_height : ℚ) : Vowel × Option ErrKind :=
  if 0 ≤ new_height ∧ new_height ≤ 6 then
    ({ v with height := new_height }, none)
  else
    (v, some ErrKind.impossibleArticulation)

/-- Modelled from the spec: `Vowel::raise` (phonetics.h lines 546-558) — throws
if the value would cause the height to exceed 6.0; on failure the height is
unchanged. -/
def raise (v : Vowel) (val : ℚ) : Vowel × Option ErrKind :=
  if 6 < v.height + val then
    (v, some ErrKind.impossibleArticulation)
  else
    ({ v with height := v.height + val }, none)

/-- Modelled from the spec: `Vowel::lower` (phonetics.h lines 560-572) — throws
if the value would cause the height to be negative. -/
def lower (v : Vowel) (val : ℚ) : Vowel × Option ErrKind :=
  if v.height - val < 0 then
    (v, some ErrKind.impossibleArticulation)
  else
    ({ v with height := v.height - val }, none)

/-- Modelled from the spec: `Vowel::set_backness` (phonetics.h lines 582-594) —
the new backness must be in `[0, 4]`. -/
def set_backness (v : Vowel) (new_backness : ℚ) : Vowel × Option ErrKind :=
  if 0 ≤ new_backness ∧ new_backness ≤ 4 then
    ({ v with backness := new_backness }, none)
  else
    (v, some ErrKind.impossibleArticulation)

/-- Modelled from the spec: `Vowel::move_back` (phonetics.h lines 596-609) —
throws if the value would cause the backness to exceed 4.0. -/
def move_back (v : Vowel) (val : ℚ) : Vowel × Option ErrKind :=
  if 4 < v.backness + val then
    (v, some ErrKind.impossibleArticulation)
  else
    ({ v with backness := v.backness + val }, none)

/-- Modelled from the spec: `Vowel::move_forward` (phonetics.h lines 611-624) —
throws if the value would cause the backness to be negative. -/
def move_forward (v : Vowel) (val : ℚ) : Vowel × Option ErrKind :=
  if v.backness - val < 0 then
    (v, some ErrKind.impossibleArticulation)
  else
    ({ v with backness := v.backness - val }, none)

/-- Modelled from the spec: `Vowel::set_roundedness` (phonetics.h lines 632-639) —
no failure mode. -/
def set_roundedness (v : Vowel) (new_roundedness : Roundedness) :
    Vowel × Option ErrKind :=
  ({ v with roundedness := new_roundedness }, none)

/-- Modelled from the spec: `Vowel::r_color` (phonetics.h lines 654-659). -/
def r_color (v : Vowel) : Vowel × Option ErrKind :=
  ({ v with r_colored := true }, none)

/-- Modelled from the spec: `Vowel::de_r_color` (phonetics.h lines 661-666). -/
def de_r_color (v : Vowel) : Vowel × Option ErrKind :=
  ({ v with r_colored := false }, none)

/-- Modelled from the spec: `Phone::set_nasalization` on a vowel. -/
def v_set_nasalization (v : Vowel) (new_nasalization : Nasalization) :
    Vowel × Option ErrKind :=
  ({ v with nasalization := new_nasalization }, none)

/-- Modelled from the spec: `Phone::set_length` on a vowel. -/
def v_set_length (v : Vowel) (new_length : ℚ) : Vowel × Option ErrKind :=
  if 0 < new_length then
    ({ v with length := new_length }, none)
  else
    (v, some ErrKind.impossibleArticulation)

/-- Modelled from the spec: `Phone::lengthen` on a vowel. -/
def v_lengthen (v : Vowel) (val : ℚ) : Vowel × Option ErrKind :=
  ({ v with length := v.length + val }, none)

/-- Modelled from the spec: `Phone::shorten` on a vowel. -/
def v_shorten (v : Vowel) (val : ℚ) : Vowel × Option ErrKind :=
  if 0 < v.length - val then
    ({ v with length := v.length - val }, none)
  else
    (v, some ErrKind.impossibleArticulation)

/-- Modelled from the spec: `Phone::double_length` on a vowel. -/
def v_double_length (v : Vowel) : Vowel × Option ErrKind :=
  ({ v with length := 2 * v.length }, none)

/-- Modelled from the spec: `Phone::halve_length` on a vowel. -/
def v_halve_length (v : Vowel) : Vowel × Option ErrKind :=
  ({ v with length := v.length / 2 }, none)

/-- One public mutator call on a `Vowel` (the `Vowel` mutators and the `Phone`
mutators it inherits). -/
inductive VOp where
| set_height (x : ℚ)
| raise (x : ℚ)
| lower (x : ℚ)
| set_backness (x : ℚ)
| move_back (x : ℚ)
| move_forward (x : ℚ)
| set_roundedness (r : Roundedness)
| r_color
| de_r_color
| set_nasalization (n : Nasalization)
| set_phonation (p : Phonation)
| incr_phonation (k : Int)
| decr_phonation (k : Int)
| set_length (l : ℚ)
| lengthen (l : ℚ)
| shorten (l : ℚ)
| double_length
| halve_length
deriving DecidableEq, Repr

/-- Dispatch of a vowel mutator call to the corresponding member function model. -/
def applyVOp (v : Vowel) : VOp → Vowel × Option ErrKind
| VOp.set_height x => set_height v x
| VOp.raise x => raise v x
| VOp.lower x => lower v x
| VOp.set_backness x => set_backness v x
| VOp.move_back x => move_back v x
| VOp.move_forward x => move_forward v x
| VOp.set_roundedness r => set_roundedness v r
| VOp.r_color => r_color v
| VOp.de_r_color => de_r_color v
| VOp.set_nasalization n => v_set_nasalization v n
| VOp.set_phonation p => v_set_phonation v p
| VOp.incr_phonation k => v_incr_phonation v k
| VOp.decr_phonation k => v_decr_phonation v k
| VOp.set_length l => v_set_length v l
| VOp.lengthen l => v_lengthen v l
| VOp.shorten l => v_shorten v l
| VOp.double_length => v_double_length v
| VOp.halve_length => v_halve_length v

/-- The vowels reachable through the public constructors and mutators. -/
inductive ReachableV : Vowel → Prop where
| default : ReachableV defaultVowel
| mkSimple {h b : ℚ} {r : Roundedness} {v : Vowel} :
    mkVowelSimple h b r = Except.ok v → ReachableV v
| mk {h b : ℚ} {r : Roundedness} {nas : Nasalization} {rc : Bool}
    {ph : Phonation} {len : ℚ} {v : Vowel} :
    mkVowel h b r nas rc ph len = Except.ok v → ReachableV v
| step {v : Vowel} (op : VOp) : ReachableV v → ReachableV (applyVOp v op).1

/-- No vowel mutator ever commits a `glottal_closure` phonation. -/
theorem vowel_phonation_applyVOp (v : Vowel) (op : VOp)
    (h : v.phonation ≠ Phonation.glottal_closure) :
    (applyVOp v op).1.phonation ≠ Phonation.glottal_closure := by
  cases op <;>
    simp only [applyVOp, set_height, raise, lower, set_backness, move_back,
      move_forward, set_roundedness, r_color, de_r_color, v_set_nasalization,
      v_set_phonation, v_incr_phonation, v_decr_phonation, v_set_length,
      v_lengthen, v_shorten, v_double_length, v_halve_length] <;>
    (try split) <;>
    simp_all

/-- C7: the phonation of a vowel reachable through the public constructors and
mutators is never the glottal-closure state; the detailed constructor rejects a
`glottal_closure` phonation, and each phonation mutator whose candidate is
`glottal_closure` fails with an ImpossibleArticulation-kind error, leaving the
vowel unchanged. -/
theorem vowel_never_glottal_closure :
    (∀ v : Vowel, ReachableV v → v.phonation ≠ Phonation.glottal_closure) ∧
    (∀ (h b : ℚ) (r : Roundedness) (nas : Nasalization) (rc : Bool) (len : ℚ),
      mkVowel h b r nas rc Phonation.glottal_closure len =
        Except.error ErrKind.impossibleArticulation) ∧
    (∀ v : Vowel, v_set_phonation v Phonation.glottal_closure =
      (v, some ErrKind.impossibleArticulation)) ∧
    (∀ (v : Vowel) (k : Int),
      phonationOfIdx (phonationIdx v.phonation + k) = Phonation.glottal_closure →
      v_incr_phonation v k = (v, some ErrKind.impossibleArticulation)) ∧
    (∀ (v : Vowel) (k : Int),
      phonationOfIdx (phonationIdx v.phonation - k) = Phonation.glottal_closure →
      v_decr_phonation v k = (v, some ErrKind.impossibleArticulation)) := by
  have hset : ∀ v : Vowel, v_set_phonation v Phonation.glottal_closure =
      (v, some ErrKind.impossibleArticulation) := by
    intro v
    unfold v_set_phonation
    rw [if_pos rfl]
  refine ⟨fun v hv => ?_, fun h b r nas rc len => ?_, hset,
    fun v k hk => ?_, fun v k hk => ?_⟩
  · induction hv with
    | default => decide
    | mkSimple h =>
      unfold mkVowelSimple at h
      split at h
      · cases h
        simp
      · cases h
    | mk h =>
      unfold mkVowel at h
      split at h
      case isTrue hc =>
        cases h
        exact hc.2.2.2.2.2
      case isFalse => cases h
    | step op hv ih => exact vowel_phonation_applyVOp _ op ih
  · unfold mkVowel
    rw [if_neg]
    intro hc
    exact hc.2.2.2.2.2 rfl
  · unfold v_incr_phonation
    rw [hk]
    exact hset v
  · unfold v_decr_phonation
    rw [hk]
    exact hset v

/-- Witness for C7 at concrete inputs: the default vowel is reachable and not
glottal-closed; constructing an a-like vowel with `glottal_closure` fails;
`set_phonation(glottal_closure)` on the schwa fails and changes nothing; so
does `incr_phonation(3)` from modal (ordinal 3 + 3 = 6 = glottal closure). -/
theorem vowel_never_glottal_closure_witness :
    defaultVowel.phonation ≠ Phonation.glottal_closure ∧
    mkVowel 0 0 Roundedness.unrounded Nasalization.oral false
      Phonation.glottal_closure 1 = Except.error ErrKind.impossibleArticulation ∧
    v_set_phonation defaultVowel Phonation.glottal_closure =
      (defaultVowel, some ErrKind.impossibleArticulation) ∧
    v_incr_phonation defaultVowel 3 =
      (defaultVowel, some ErrKind.impossibleArticulation) :=
  ⟨vowel_never_glottal_closure.1 defaultVowel ReachableV.default,
   vowel_never_glottal_closure.2.1 0 0 Roundedness.unrounded Nasalization.oral false 1,
   vowel_never_glottal_closure.2.2.1 defaultVowel,
   vowel_never_glottal_closure.2.2.2.1 defaultVowel 3 (by decide)⟩

/-- C8 counterexample: at the concrete input of Scenario E (a schwa whose
height was set to 6.0, then `raise(0.5)`), the call does fail and the height is
unchanged, but the error raised is of the ImpossibleArticulation kind, and in
the source (`phonetics.h` line 43) `ImpossibleArticulation` derives directly
from the generic `expt::Exception`, not from the value-invalid kind
`expt::ValueError`; so the raised error is not of the value-invalid kind and
the articulation-impossible kind is not its child, contrary to the claim. -/
theorem raise_error_kind_counterexample :
    raise
      { height := 6, backness := 2, roundedness := Roundedness.unrounded
        r_colored := false, phonation := Phonation.modal
        nasalization := Nasalization.oral, length := 1 } (1/2) =
      ({ height := 6, backness := 2, roundedness := Roundedness.unrounded
         r_colored := false, phonation := Phonation.modal
         nasalization := Nasalization.oral, length := 1 },
       some ErrKind.impossibleArticulation) ∧
    parentKind ErrKind.impossibleArticulation ≠ some ErrKind.valueError ∧
    kindDescendsFrom ErrKind.impossibleArticulation ErrKind.valueError = false := by
  refine ⟨?_, by decide, by decide⟩
  unfold raise
  rw [if_pos (by norm_num)]

/-- C8 as amended: a bound-leaving height or backness mutation fails with an
ImpossibleArticulation-kind error — a kind that in the source derives directly
from the generic Exception kind (it is convertible to ValueError but not a
subclass of it) — and the field is left unchanged. -/
theorem vowel_bounds_amended (v : Vowel) (val : ℚ) :
    (v.height = 6 → 0 < val → raise v val = (v, some ErrKind.impossibleArticulation)) ∧
    (6 < v.height + val → raise v val = (v, some ErrKind.impossibleArticulation)) ∧
    (v.height - val < 0 → lower v val = (v, some ErrKind.impossibleArticulation)) ∧
    (¬(0 ≤ val ∧ val ≤ 6) → set_height v val = (v, some ErrKind.impossibleArticulation)) ∧
    (¬(0 ≤ val ∧ val ≤ 4) → set_backness v val = (v, some ErrKind.impossibleArticulation)) ∧
    (4 < v.backness + val → move_back v val = (v, some ErrKind.impossibleArticulation)) ∧
    (v.backness - val < 0 → move_forward v val = (v, some ErrKind.impossibleArticulation)) ∧
    parentKind ErrKind.impossibleArticulation = some ErrKind.exception ∧
    kindDescendsFrom ErrKind.impossibleArticulation ErrKind.exception = true := by
  refine ⟨fun h6 hp => ?_, fun hlt => ?_, fun hlt => ?_, fun hout => ?_,
    fun hout => ?_, fun hlt => ?_, fun hlt => ?_, rfl, by decide⟩
  · unfold raise
    rw [if_pos (by rw [h6]; linarith)]
  · unfold raise
    rw [if_pos hlt]
  · unfold lower
    rw [if_pos hlt]
  · unfold set_height
    rw [if_neg hout]
  · unfold set_backness
    rw [if_neg hout]
  · unfold move_back
    rw [if_pos hlt]
  · unfold move_forward
    rw [if_pos hlt]

/-- Witness for the amended C8 at concrete inputs: the height-6 schwa of
Scenario E rejects `raise(0.5)`, `lower(7)`, `set_height(7)`, `set_backness(5)`,
`move_back(3)` and `move_forward(3)`, each leaving the vowel untouched. -/
theorem vowel_bounds_amended_witness :
    raise
      { height := 6, backness := 2, roundedness := Roundedness.unrounded
        r_colored := false, phonation := Phonation.modal
        nasalization := Nasalization.oral, length := 1 } (1/2) =
      ({ height := 6, backness := 2, roundedness := Roundedness.unrounded
         r_colored := false, phonation := Phonation.modal
         nasalization := Nasalization.oral, length := 1 },
       some ErrKind.impossibleArticulation) ∧
    lower
      { height := 6, backness := 2, roundedness := Roundedness.unrounded
        r_colored := false, phonation := Phonation.modal
        nasalization := Nasalization.oral, length := 1 } 7 =
      ({ height := 6, backness := 2, roundedness := Roundedness.unrounded
         r_colored := false, phonation := Phonation.modal
         nasalization := Nasalization.oral, length := 1 },
       some ErrKind.impossibleArticulation) ∧
    set_height
      { height := 6, backness := 2, roundedness := Roundedness.unrounded
        r_colored := false, phonation := Phonation.modal
        nasalization := Nasalization.oral, length := 1 } 7 =
      ({ height := 6, backness := 2, roundedness := Roundedness.unrounded
         r_colored := false, phonation := Phonation.modal
         nasalization := Nasalization.oral, length := 1 },
       some ErrKind.impossibleArticulation) ∧
    set_backness
      { height := 6, backness := 2, roundedness := Roundedness.unrounded
        r_colored := false, phonation := Phonation.modal
        nasalization := Nasalization.oral, length := 1 } 5 =
      ({ height := 6, backness := 2, roundedness := Roundedness.unrounded
         r_colored := false, phonation := Phonation.modal
         nasalization := Nasalization.oral, length := 1 },
       some ErrKind.impossibleArticulation) ∧
    move_back
      { height := 6, backness := 2, roundedness := Roundedness.unrounded
        r_colored := false, phonation := Phonation.modal
        nasalization := Nasalization.oral, length := 1 } 3 =
      ({ height := 6, backness := 2, roundedness := Roundedness.unrounded
         r_colored := false, phonation := Phonation.modal
         nasalization := Nasalization.oral, length := 1 },
       some ErrKind.impossibleArticulation) ∧
    move_forward
      { height := 6, backness := 2, roundedness := Roundedness.unrounded
        r_colored := false, phonation := Phonation.modal
        nasalization := Nasalization.oral, length := 1 } 3 =
      ({ height := 6, backness := 2, roundedness := Roundedness.unrounded
         r_colored := false, phonation := Phonation.modal
         nasalization := Nasalization.oral, length := 1 },
       some ErrKind.impossibleArticulation) :=
  ⟨(vowel_bounds_amended _ (1/2)).1 rfl (by norm_num),
   (vowel_bounds_amended _ 7).2.2.1 (by norm_num),
   (vowel_bounds_amended _ 7).2.2.2.1 (by norm_num),
   (vowel_bounds_amended _ 5).2.2.2.2.1 (by norm_num),
   (vowel_bounds_amended _ 3).2.2.2.2.2.1 (by norm_num),
   (vowel_bounds_amended _ 3).2.2.2.2.2.2.1 (by norm_num)⟩

/-- C10: `IndexError`'s conversion operators always produce an empty-message
`ValueError` or `Exception` regardless of the `IndexError`'s own (inherited)
message, and `IndexError::operator=` copies nothing — the left-hand side is
returned with its message field unchanged. -/
theorem index_error_conversions_empty :
    (∀ e : IndexError,
      indexErrorToValueError e = { message := "" } ∧
      indexErrorToException e = { message := "" } ∧
      (indexErrorToValueError e).message = "" ∧
      (indexErrorToException e).message = "") ∧
    (∀ lhs rhs : IndexError,
      indexErrorAssign lhs rhs = lhs ∧
      (indexErrorAssign lhs rhs).message = lhs.message) :=
  ⟨fun e => ⟨rfl, rfl, rfl, rfl⟩, fun lhs rhs => ⟨rfl, rfl⟩⟩

/-- `class Tone` (phonetics.h lines 1106-1125): a wrapper around an array of
three integers, each between -2 and 2, in chronological order. -/
structure Tone where
  p1 : Int
  p2 : Int
  p3 : Int
deriving DecidableEq, Repr

/-- The `Tone` field invariant (phonetics.h lines 1117-1125): every pitch is
between -2 and 2. -/
def validTone (t : Tone) : Prop :=
  -2 ≤ t.p1 ∧ t.p1 ≤ 2 ∧ -2 ≤ t.p2 ∧ t.p2 ≤ 2 ∧ -2 ≤ t.p3 ∧ t.p3 ≤ 2

instance (t : Tone) : Decidable (validTone t) := by
  unfold validTone
  infer_instance

/-- Modelled from the spec: `Tone::operator++` (phonetics.h lines 1581-1593) —
the 3-slot vector as a 3-digit base-5 odometer with digit domain
`{-2,-1,0,1,2}`: advance the rightmost digit, carrying left on overflow
(digit 2 becomes -2 with a carry); after `{2,2,2}` wrap to `{-2,-2,-2}`. -/
def toneInc (t : Tone) : Tone :=
  if t.p3 < 2 then { t with p3 := t.p3 + 1 }
  else if t.p2 < 2 then { p1 := t.p1, p2 := t.p2 + 1, p3 := -2 }
  else if t.p1 < 2 then { p1 := t.p1 + 1, p2 := -2, p3 := -2 }
  else { p1 := -2, p2 := -2, p3 := -2 }

/-- Modelled from the spec: `Tone::operator--` (phonetics.h lines 1595-1607) —
the exact inverse of the odometer increment. -/
def toneDec (t : Tone) : Tone :=
  if -2 < t.p3 then { t with p3 := t.p3 - 1 }
  else if -2 < t.p2 then { p1 := t.p1, p2 := t.p2 - 1, p3 := 2 }
  else if -2 < t.p1 then { p1 := t.p1 - 1, p2 := 2, p3 := 2 }
  else { p1 := 2, p2 := 2, p3 := 2 }

set_option maxRecDepth 4000 in
/-- C4: the tone increment is a 3-digit base-5 odometer over `{-2,...,2}`:
incrementing `{2,2,2}` wraps to `{-2,-2,-2}`; from any valid tone, 125
increments return to the start; every intermediate state stays within bounds
(increment preserves validity); and decrement is the exact inverse of
increment. -/
theorem tone_odometer :
    toneInc { p1 := 2, p2 := 2, p3 := 2 } = { p1 := -2, p2 := -2, p3 := -2 } ∧
    (∀ t : Tone, validTone t →
      toneInc^[125] t = t ∧ validTone (toneInc t) ∧
      toneDec (toneInc t) = t ∧ toneInc (toneDec t) = t) := by
  refine ⟨by decide, fun t ht => ?_⟩
  obtain ⟨a, b, c⟩ := t
  obtain ⟨h1, h2, h3, h4, h5, h6⟩ := ht
  interval_cases a <;> interval_cases b <;> interval_cases c <;> decide

set_option maxRecDepth 4000 in
/-- Witness for C4 at a concrete input: the default tone `{0,0,0}` is valid,
cycles back after 125 increments, stays valid after one increment, and
decrement undoes increment. -/
theorem tone_odometer_witness :
    validTone { p1 := 0, p2 := 0, p3 := 0 } ∧
    toneInc^[125] { p1 := 0, p2 := 0, p3 := 0 } = { p1 := 0, p2 := 0, p3 := 0 } ∧
    validTone (toneInc { p1 := 0, p2 := 0, p3 := 0 }) ∧
    toneDec (toneInc { p1 := 0, p2 := 0, p3 := 0 }) = { p1 := 0, p2 := 0, p3 := 0 } ∧
    toneInc (toneDec { p1 := 0, p2 := 0, p3 := 0 }) = { p1 := 0, p2 := 0, p3 := 0 } := by
  have h := tone_odometer.2 { p1 := 0, p2 := 0, p3 := 0 } (by decide)
  exact ⟨by decide, h.1, h.2.1, h.2.2.1, h.2.2.2⟩

/-- A phone stored in a syllable: the two concrete `Phone` variants. -/
inductive PhoneVal where
| vw (v : Vowel)
| cn (c : Consonant)
deriving DecidableEq, Repr

/-- `class Syllable` (phonetics.h lines 1667-1695): the onset, nucleus and coda
sequences of phones plus one tone.  The source's pointer-into-backing-store
representation is embedded as directly owned sequences, as the spec's design
notes prescribe for a re-implementation. -/
structure Syllable where
  onset : List PhoneVal
  nucleus : List PhoneVal
  coda : List PhoneVal
  tone : Tone
deriving DecidableEq, Repr

/-- Modelled from the spec: the detailed constructor
`Syllable(onset, nucleus, coda, tone)` (phonetics.h lines 2097-2116) — throws
`ImpossibleArticulation` if `nucleus` is an empty vector. -/
def mkSyllable (onset nucleus coda : List PhoneVal) (tone : Tone) :
    Except ErrKind Syllable :=
  if nucleus = [] then
    Except.error ErrKind.impossibleArticulation
  else
    Except.ok { onset := onset, nucleus := nucleus, coda := coda, tone := tone }

/-- `Syllable::phones` (phonetics.h lines 2266-2271): all the phones of the
syllable in order — the logical concatenation onset, nucleus, coda. -/
def phones (s : Syllable) : List PhoneVal :=
  s.onset ++ s.nucleus ++ s.coda

/-- Modelled from the spec: `Syllable::operator[]` (phonetics.h lines 2161-2163,
with the index semantics of `Syllable::iterator::set_position`, lines
1876-1887) — index `i ≥ 0` addresses position `i` of the logical concatenation,
a negative index addresses from the end, and both are bounds-checked against
the total combined length, signaling an `expt::IndexError` otherwise. -/
def syllableGet (s : Syllable) (index : Int) : Except ErrKind PhoneVal :=
  if 0 ≤ index ∧ index < ((phones s).length : Int) then
    Except.ok ((phones s).getD index.toNat (PhoneVal.vw defaultVowel))
  else if -((phones s).length : Int) ≤ index ∧ index < 0 then
    Except.ok ((phones s).getD (index + (phones s).length).toNat (PhoneVal.vw defaultVowel))
  else
    Except.error ErrKind.indexError

/-- C5: constructing a syllable from explicit onset, nucleus and coda sequences
raises ImpossibleArticulation if and only if the nucleus sequence is empty, and
succeeds for every non-empty nucleus. -/
theorem syllable_ctor_nucleus (onset nucleus coda : List PhoneVal) (tone : Tone) :
    (mkSyllable onset nucleus coda tone = Except.error ErrKind.impossibleArticulation ↔
      nucleus = []) ∧
    (nucleus ≠ [] →
      mkSyllable onset nucleus coda tone =
        Except.ok { onset := onset, nucleus := nucleus, coda := coda, tone := tone }) := by
  unfold mkSyllable
  split_ifs with h <;> simp_all

/-- Witness for C5 at concrete inputs: the empty nucleus is rejected and the
one-schwa nucleus of Scenario F is accepted. -/
theorem syllable_ctor_nucleus_witness :
    (mkSyllable [] [] [] { p1 := 0, p2 := 0, p3 := 0 } =
      Except.error ErrKind.impossibleArticulation) ∧
    (mkSyllable [] [PhoneVal.vw defaultVowel] [] { p1 := 0, p2 := 0, p3 := 0 } =
      Except.ok
        { onset := [], nucleus := [PhoneVal.vw defaultVowel], coda := []
          tone := { p1 := 0, p2 := 0, p3 := 0 } }) :=
  ⟨(syllable_ctor_nucleus [] [] [] { p1 := 0, p2 := 0, p3 := 0 }).1.mpr rfl,
   (syllable_ctor_nucleus [] [PhoneVal.vw defaultVowel] []
     { p1 := 0, p2 := 0, p3 := 0 }).2 (by simp)⟩

/-- C6: over the logical concatenation onset, nucleus, coda of total length
`n`, indexing at `-k` (for `1 ≤ k ≤ n`) returns the same element as indexing at
`n - k` — in particular `-1` and `n-1` agree — and every index outside
`[-n, n-1]` raises an IndexError bounds violation. -/
theorem syllable_negative_index (s : Syllable) (k : Int)
    (h1 : 1 ≤ k) (h2 : k ≤ ((phones s).length : Int)) :
    syllableGet s (-k) = syllableGet s (((phones s).length : Int) - k) ∧
    (∃ x, syllableGet s (-k) = Except.ok x) ∧
    (∀ i : Int, i < -((phones s).length : Int) ∨ ((phones s).length : Int) ≤ i →
      syllableGet s i = Except.error ErrKind.indexError) := by
  have hL : syllableGet s (-k) =
      Except.ok ((phones s).getD (-k + (phones s).length).toNat (PhoneVal.vw defaultVowel)) := by
    unfold syllableGet
    rw [if_neg (by omega), if_pos (by omega)]
  have hR : syllableGet s (((phones s).length : Int) - k) =
      Except.ok ((phones s).getD (((phones s).length : Int) - k).toNat (PhoneVal.vw defaultVowel)) := by
    unfold syllableGet
    rw [if_pos (by omega)]
  refine ⟨?_, ⟨_, hL⟩, fun i hi => ?_⟩
  · rw [hL, hR]
    have harith : -k + ((phones s).length : Int) = ((phones s).length : Int) - k := by
      ring
    rw [harith]
  · unfold syllableGet
    rw [if_neg (by omega), if_neg (by omega)]

/-- Witness for C6, Scenario F of the spec: the one-phone syllable (a bare
schwa nucleus) indexes identically at `-1` and at `n - 1 = 0`, both returning
the schwa, and index `1` (equal to the length) is out of bounds. -/
theorem syllable_negative_index_witness :
    syllableGet
      { onset := [], nucleus := [PhoneVal.vw defaultVowel], coda := []
        tone := { p1 := 0, p2 := 0, p3 := 0 } } (-1) =
    syllableGet
      { onset := [], nucleus := [PhoneVal.vw defaultVowel], coda := []
        tone := { p1 := 0, p2 := 0, p3 := 0 } } 0 ∧
    syllableGet
      { onset := [], nucleus := [PhoneVal.vw defaultVowel], coda := []
        tone := { p1 := 0, p2 := 0, p3 := 0 } } 1 =
      Except.error ErrKind.indexError := by
  have h := syllable_negative_index
    { onset := [], nucleus := [PhoneVal.vw defaultVowel], coda := []
      tone := { p1 := 0, p2 := 0, p3 := 0 } } 1 (by norm_num)
    (by simp [phones])
  refine ⟨?_, h.2.2 1 (by simp [phones])⟩
  have h0 := h.1
  simpa [phones] using h0

end Lang
